import Mathlib

/-!
Verification of `hive/jax_agent/qnets/conv.py` (class `ConvNetwork`).

The construction logic of `ConvNetwork.__init__` and the evaluation logic of
`ConvNetwork.forward` are shallowly embedded below.  Python runtime failures
that the construction code can hit are made explicit as an error type:

* raising `ValueError("The lengths of the parameter lists must be the same")`
  at lines 74-77 is `InitError.lengthMismatch`;
* subscripting an `int` (the expression `paddings[i][0]` at line 86 when the
  per-layer padding entry is an integer, as produced by the scalar broadcast
  at lines 71-72) is `InitError.typeError`;
* subscripting a sequence out of range is `InitError.indexError`;
* the call `calculate_output_dim(self.conv, in_dim)` at line 97 names a
  function whose import (line 14) is commented out in the source, so reaching
  that line raises a `NameError`; this is `InitError.nameError`.

Hyperparameter arguments that Python receives as `int | list` are embedded as
sum types (`IntOrList`, `PadArg`); a padding-list entry is itself either an
`int` or a subscriptable sequence (`PadEntry`).  The in-place mutation
`channels.insert(0, in_dim[0])` at line 80 is tracked by returning, next to
the construction result, the final contents of the caller's `channels` list.
-/

/-- An argument that Python code receives as either an `int` scalar or a list
of `int` (used for `kernel_sizes` and `strides`). -/
inductive IntOrList where
  | int (n : Int)
  | list (l : List Int)
deriving DecidableEq, Repr

/-- One entry of the `paddings` list: either an `int` (not subscriptable) or a
subscriptable sequence of `int`. -/
inductive PadEntry where
  | int (n : Int)
  | seq (l : List Int)
deriving DecidableEq, Repr

/-- The `paddings` argument: an `int` scalar or a list of entries. -/
inductive PadArg where
  | int (n : Int)
  | list (l : List PadEntry)
deriving DecidableEq, Repr

/-- Python runtime errors that `ConvNetwork.__init__` can raise. -/
inductive InitError where
  | lengthMismatch
  | typeError
  | indexError
  | nameError
deriving DecidableEq, Repr

/-- The configuration of one `nn.Conv` layer as built at lines 85-87: output
features, kernel size, stride, and the padding argument
`((paddings[i][0], paddings[i][0]), (paddings[i][1], paddings[i][1]))`. -/
structure ConvLayerSpec where
  features : Int
  kernel_size : Int
  stride : Int
  padding : (Int × Int) × (Int × Int)
deriving DecidableEq, Repr

/-- One element of the `conv_seq` list: a convolution layer or the activation
appended right after it at line 90. -/
inductive ConvSeqItem where
  | conv (spec : ConvLayerSpec)
  | relu
deriving DecidableEq, Repr

/-- The convolutional stage: `nn.Identity()` when `channels is None` (line 93),
otherwise the assembled `conv_seq` layer list (line 91). -/
inductive ConvStage where
  | identity
  | seq (items : List ConvSeqItem)
deriving DecidableEq, Repr

/-- The fully-connected stage: `nn.Identity()` when `mlp_layers is None`
(line 102).  Building the real MLP (lines 97-100) is unreachable in the source
because `calculate_output_dim` is undefined there, so no other constructor is
ever produced by `init`. -/
inductive MLPStage where
  | identity
deriving DecidableEq, Repr

/-- The state of a successfully constructed `ConvNetwork`. -/
structure ConvNetworkModel where
  normalization_factor : Rat
  conv : ConvStage
  mlp : MLPStage
deriving DecidableEq, Repr

/-- The outcome of `__init__`: the constructed network or the raised error,
together with the final contents of the caller-supplied `channels` list
(tracking the in-place `channels.insert(0, in_dim[0])` at line 80). -/
structure InitOutcome where
  result : Except InitError ConvNetworkModel
  channelsFinal : Option (List Int)
deriving Repr

/-- Broadcasting at lines 67-70: `[x] * len(channels)` when the argument is an
`int`, the list itself otherwise. -/
def broadcastIntOrList (a : IntOrList) (n : Nat) : List Int :=
  match a with
  | .int k => List.replicate n k
  | .list l => l

/-- Broadcasting of `paddings` at lines 71-72: a scalar becomes a list of
`int` entries (each one NOT subscriptable). -/
def broadcastPad (a : PadArg) (n : Nat) : List PadEntry :=
  match a with
  | .int k => List.replicate n (.int k)
  | .list l => l

/-- Python subscripting `p[j]` on a padding entry: an `int` entry raises
`TypeError`, a sequence entry raises `IndexError` out of range. -/
def subscriptPad (p : PadEntry) (j : Nat) : Except InitError Int :=
  match p with
  | .int _ => .error .typeError
  | .seq l =>
    match l.get? j with
    | some v => .ok v
    | none => .error .indexError

/-- The padding argument built at line 86:
`((paddings[i][0], paddings[i][0]), (paddings[i][1], paddings[i][1]))`; the
first failing subscript propagates. -/
def mkPadding (p : PadEntry) : Except InitError ((Int × Int) × (Int × Int)) :=
  match subscriptPad p 0 with
  | .error e => .error e
  | .ok a =>
    match subscriptPad p 1 with
    | .error e => .error e
    | .ok b => .ok ((a, a), (b, b))

/-- The loop of lines 82-90: layer `i` maps to output features
`channels[i+1]` with `kernel_sizes[i]`, `strides[i]`, `paddings[i]`; each
convolution is followed by a ReLU item.  The lists passed here are the tail
of the mutated channels list and the three (already validated, equal-length)
parameter lists. -/
def buildConvSeq : List Int → List Int → List Int → List PadEntry →
    Except InitError (List ConvSeqItem)
  | [], _, _, _ => .ok []
  | f :: fs, k :: ks, s :: ss, p :: ps =>
    match mkPadding p with
    | .error e => .error e
    | .ok pad =>
      match buildConvSeq fs ks ss ps with
      | .error e => .error e
      | .ok rest => .ok (.conv ⟨f, k, s, pad⟩ :: .relu :: rest)
  | _, _, _, _ => .error .indexError

/-- Shallow embedding of `ConvNetwork.__init__` (lines 29-102).  `in_dim` is
the `(channels, width, height)` descriptor; `in_dim.1` is `in_dim[0]`. -/
def init (in_dim : Int × Int × Int) (channels : Option (List Int))
    (mlp_layers : Option (List Int)) (kernel_sizes strides : IntOrList)
    (paddings : PadArg) (normalization_factor : Rat) (noisy : Bool)
    (std_init : Rat) : InitOutcome :=
  match channels with
  | some cs =>
    let ks := broadcastIntOrList kernel_sizes cs.length
    let ss := broadcastIntOrList strides cs.length
    let ps := broadcastPad paddings cs.length
    if ks.length = cs.length ∧ ss.length = cs.length ∧ ps.length = cs.length then
      -- line 80: channels.insert(0, in_dim[0]); loop indexes channels[i+1],
      -- i.e. the elements of the original cs
      let csMut := in_dim.1 :: cs
      match buildConvSeq cs ks ss ps with
      | .error e => ⟨.error e, some csMut⟩
      | .ok items =>
        match mlp_layers with
        | some _ => ⟨.error .nameError, some csMut⟩
        | none => ⟨.ok ⟨normalization_factor, .seq items, .identity⟩, some csMut⟩
    else
      ⟨.error .lengthMismatch, some cs⟩
  | none =>
    match mlp_layers with
    | some _ => ⟨.error .nameError, none⟩
    | none => ⟨.ok ⟨normalization_factor, .identity, .identity⟩, none⟩

/-! ### The evaluation phase (`ConvNetwork.forward`, lines 104-113) -/

/-- A tensor: a shape and the flat list of element values.  Values are exact
rationals; the `.float()` cast is value-preserving in this model. -/
structure Tensor where
  shape : List Nat
  data : List Rat
deriving DecidableEq, Repr

/-- A tensor is well formed when its data has exactly as many elements as the
shape describes and every dimension is positive. -/
def wellFormed (t : Tensor) : Prop :=
  t.data.length = t.shape.prod ∧ ∀ d ∈ t.shape, 0 < d

instance (t : Tensor) : Decidable (wellFormed t) := by
  unfold wellFormed; infer_instance

/-- The rank dispatch of lines 105-108: rank 3 gets `x.unsqueeze(0)`; rank 5
gets `x.reshape(x.size(0), -1, x.size(-2), x.size(-1))` where the `-1`
dimension is inferred as the element count divided by the product of the
explicit dimensions; other ranks pass through. -/
def adjustRank (t : Tensor) : Tensor :=
  match t.shape with
  | [c, w, h] => ⟨[1, c, w, h], t.data⟩
  | [d0, _, _, d3, d4] => ⟨[d0, t.data.length / (d0 * d3 * d4), d3, d4], t.data⟩
  | _ => t

/-- Spec-side description of the same dispatch, written from the spec's words:
rank 3 `(c,w,h)` gains a synthetic leading batch dimension of size 1; rank 5
`(b,s,c,w,h)` is reshaped to `(b, s*c, w, h)`; rank 4 passes unchanged. -/
def adjustRankSpec (t : Tensor) : Tensor :=
  match t.shape with
  | [c, w, h] => ⟨[1, c, w, h], t.data⟩
  | [b, s, c, w, h] => ⟨[b, s * c, w, h], t.data⟩
  | _ => t

/-- Line 109, `x = x.float()`: cast to floating point, value-preserving on
exact rationals. -/
def castFloat (t : Tensor) : Tensor := t

/-- Line 110, `x = x / self._normalization_factor`: elementwise division. -/
def divScalar (f : Rat) (t : Tensor) : Tensor :=
  ⟨t.shape, t.data.map fun v => v / f⟩

/-- Applying the convolutional stage (line 111).  The numeric behaviour of a
real convolution layer list lives in the external framework; it is supplied
as the semantic parameter `convSem`.  The identity stage is the identity. -/
def applyConvStage (convSem : List ConvSeqItem → Tensor → Tensor) :
    ConvStage → Tensor → Tensor
  | .identity, t => t
  | .seq items, t => convSem items t

/-- Applying the fully-connected stage (line 112). -/
def applyMLPStage : MLPStage → Tensor → Tensor
  | .identity, t => t

/-- The value entering `self.mlp` during `forward`: rank adjustment, float
cast, normalization division, then the convolutional stage (lines 105-111). -/
def preMLP (convSem : List ConvSeqItem → Tensor → Tensor)
    (net : ConvNetworkModel) (x : Tensor) : Tensor :=
  applyConvStage convSem net.conv
    (divScalar net.normalization_factor (castFloat (adjustRank x)))

/-- Shallow embedding of `ConvNetwork.forward` (lines 104-113). -/
def forward (convSem : List ConvSeqItem → Tensor → Tensor)
    (net : ConvNetworkModel) (x : Tensor) : Tensor :=
  applyMLPStage net.mlp (preMLP convSem net x)

/-! ### Helper lemmas -/

/-- A padding argument produced by `mkPadding` is symmetric on each spatial
axis. -/
theorem mkPadding_symm {p : PadEntry} {pad : (Int × Int) × (Int × Int)}
    (h : mkPadding p = .ok pad) :
    pad.1.1 = pad.1.2 ∧ pad.2.1 = pad.2.2 := by
  unfold mkPadding at h
  cases h0 : subscriptPad p 0 with
  | error e => rw [h0] at h; exact absurd h (by simp)
  | ok a =>
    cases h1 : subscriptPad p 1 with
    | error e => rw [h0, h1] at h; exact absurd h (by simp)
    | ok b =>
      rw [h0, h1] at h
      cases h
      exact ⟨rfl, rfl⟩

/-- Every convolution layer in a successfully built `conv_seq` has a symmetric
padding pair. -/
theorem buildConvSeq_padding_symm :
    ∀ (fs ks ss : List Int) (ps : List PadEntry) (items : List ConvSeqItem),
      buildConvSeq fs ks ss ps = .ok items →
      ∀ spec : ConvLayerSpec, ConvSeqItem.conv spec ∈ items →
        spec.padding.1.1 = spec.padding.1.2 ∧ spec.padding.2.1 = spec.padding.2.2 := by
  intro fs
  induction fs with
  | nil =>
    intro ks ss ps items h spec hmem
    cases h
    exact absurd hmem (List.not_mem_nil _)
  | cons f fs ih =>
    intro ks ss ps items h spec hmem
    cases ks with
    | nil => exact absurd h (by simp [buildConvSeq])
    | cons k ks =>
      cases ss with
      | nil => exact absurd h (by simp [buildConvSeq])
      | cons s ss =>
        cases ps with
        | nil => exact absurd h (by simp [buildConvSeq])
        | cons p ps =>
          unfold buildConvSeq at h
          cases hp : mkPadding p with
          | error e => rw [hp] at h; exact absurd h (by simp)
          | ok pad =>
            rw [hp] at h
            cases hr : buildConvSeq fs ks ss ps with
            | error e => rw [hr] at h; exact absurd h (by simp)
            | ok rest =>
              rw [hr] at h
              cases h
              rcases hmem with _ | ⟨_, hmem⟩
              · exact mkPadding_symm hp
              · rcases hmem with _ | ⟨_, hmem⟩
                exact ih ks ss ps rest hr spec hmem

/-- Under well-formedness, the source's rank dispatch agrees with the spec's
description of it. -/
theorem adjustRank_eq_spec {t : Tensor} (h : wellFormed t) :
    adjustRank t = adjustRankSpec t := by
  obtain ⟨sh, d⟩ := t
  obtain ⟨hlen, hpos⟩ := h
  simp only at hlen hpos
  rcases sh with _ | ⟨a, _ | ⟨b, _ | ⟨c, _ | ⟨e, _ | ⟨f, _ | ⟨g, rest⟩⟩⟩⟩⟩⟩
  · rfl
  · rfl
  · rfl
  · rfl
  · rfl
  · -- rank 5: the inferred `-1` dimension equals b * c
    have ha : 0 < a := hpos a (by simp)
    have he : 0 < e := hpos e (by simp)
    have hf : 0 < f := hpos f (by simp)
    have hdvd : d.length = (b * c) * (a * e * f) := by
      simp only [List.prod_cons, List.prod_nil] at hlen
      rw [hlen]; ring
    simp only [adjustRank, adjustRankSpec, hdvd]
    rw [Nat.mul_div_cancel _ (by positivity)]
  · rfl

/-- `divScalar` keeps the shape and the number of elements, so the rank
dispatch commutes with elementwise division. -/
theorem adjustRank_divScalar (F : Rat) (t : Tensor) :
    adjustRank (divScalar F t) = divScalar F (adjustRank t) := by
  obtain ⟨sh, d⟩ := t
  rcases sh with _ | ⟨a, _ | ⟨b, _ | ⟨c, _ | ⟨e, _ | ⟨f, _ | ⟨g, rest⟩⟩⟩⟩⟩⟩ <;>
    simp [divScalar, adjustRank]

/-- Dividing by a normalization factor of `1` changes nothing. -/
theorem divScalar_one (t : Tensor) : divScalar 1 t = t := by
  obtain ⟨sh, d⟩ := t
  simp [divScalar]

/-! ### Claim theorems -/

/-- C1: the claim says that with scalar `kernel_sizes=1, strides=1,
paddings=0` construction succeeds and yields one convolution+activation pair
per channel entry.  In the code the scalar padding is broadcast to a list of
`int` entries (line 72) and each entry is then subscripted as a pair at
line 86 (`paddings[i][0]`), which raises `TypeError`; construction therefore
fails on every such call.  This theorem evaluates the embedded constructor at
the failing input `in_dim=(4,84,84)`, `channels=[16]`. -/
theorem scalar_paddings_type_error :
    (init (4, 84, 84) (some [16]) none (.int 1) (.int 1) (.int 0)
        255 false (1/2)).result = .error .typeError := rfl

/-- C4: the claim says that when `mlp_layers` is given, construction computes
the convolutional stage's flattened output size and builds an MLP.  In the
code the required helper `calculate_output_dim` is referenced at line 97 but
its import (line 14) is commented out, so every construction call with
non-`None` `mlp_layers` raises `NameError` instead — both with `channels=None`
and with a valid channels configuration. -/
theorem mlp_layers_name_error :
    (init (4, 84, 84) none (some [256]) (.int 1) (.int 1) (.int 0)
        255 false (1/2)).result = .error .nameError
    ∧ (init (4, 84, 84) (some [16]) (some [256]) (.int 1) (.int 1)
        (.list [.seq [0, 0]]) 255 false (1/2)).result = .error .nameError :=
  ⟨rfl, rfl⟩

/-- C2: if any of `kernel_sizes`, `strides`, `paddings` is supplied as a list
whose length differs from the length of `channels`, construction raises the
parameter-list-length ValueError (lines 74-77) and no instance is produced;
the caller's `channels` list is still untouched at that point. -/
theorem list_length_mismatch_aborts (in_dim : Int × Int × Int) (cs : List Int)
    (mlp : Option (List Int)) (ks ss : IntOrList) (ps : PadArg) (nf : Rat)
    (noisy : Bool) (si : Rat)
    (h : (∃ l, ks = .list l ∧ l.length ≠ cs.length)
       ∨ (∃ l, ss = .list l ∧ l.length ≠ cs.length)
       ∨ (∃ l, ps = .list l ∧ l.length ≠ cs.length)) :
    (init in_dim (some cs) mlp ks ss ps nf noisy si).result = .error .lengthMismatch
      ∧ (init in_dim (some cs) mlp ks ss ps nf noisy si).channelsFinal = some cs := by
  have hcond : ¬ ((broadcastIntOrList ks cs.length).length = cs.length
      ∧ (broadcastIntOrList ss cs.length).length = cs.length
      ∧ (broadcastPad ps cs.length).length = cs.length) := by
    rcases h with ⟨l, rfl, hl⟩ | ⟨l, rfl, hl⟩ | ⟨l, rfl, hl⟩ <;>
      simp [broadcastIntOrList, broadcastPad] <;> tauto
  have hinit : init in_dim (some cs) mlp ks ss ps nf noisy si
      = ⟨.error .lengthMismatch, some cs⟩ := by
    simp only [init]
    rw [if_neg hcond]
  rw [hinit]
  exact ⟨rfl, rfl⟩

/-- Witness for C2 at the spec's own example: `channels=[16,32]` with
`kernel_sizes=[3,3,3]` (length 3 ≠ 2) fails with the length-mismatch error. -/
theorem list_length_mismatch_aborts_witness :
    (init (4, 84, 84) (some [16, 32]) none (.list [3, 3, 3]) (.int 4) (.int 0)
        255 false (1/2)).result = .error .lengthMismatch
      ∧ (init (4, 84, 84) (some [16, 32]) none (.list [3, 3, 3]) (.int 4) (.int 0)
        255 false (1/2)).channelsFinal = some [16, 32] :=
  list_length_mismatch_aborts (4, 84, 84) [16, 32] none (.list [3, 3, 3])
    (.int 4) (.int 0) 255 false (1/2) (Or.inl ⟨[3, 3, 3], rfl, by decide⟩)

/-- C9: when `channels=None` the whole validation/broadcast block (lines
66-91) is skipped, so the values of `kernel_sizes`, `strides` and `paddings`
are ignored entirely: the outcome does not depend on them and is never the
parameter-list-length-mismatch error. -/
theorem channels_none_ignores_param_lists (in_dim : Int × Int × Int)
    (mlp : Option (List Int)) (nf : Rat) (noisy : Bool) (si : Rat)
    (ks ss ks' ss' : IntOrList) (ps ps' : PadArg) :
    init in_dim none mlp ks ss ps nf noisy si
        = init in_dim none mlp ks' ss' ps' nf noisy si
      ∧ (init in_dim none mlp ks ss ps nf noisy si).result
        ≠ .error .lengthMismatch := by
  refine ⟨rfl, ?_⟩
  cases mlp <;> simp [init]

/-- C10: every convolution layer of a successfully constructed network has its
per-layer padding entry `p` applied symmetrically on each spatial axis as
`((p[0],p[0]),(p[1],p[1]))` (line 86), so the padding before and after a given
spatial axis is always the same value. -/
theorem conv_padding_symmetric (in_dim : Int × Int × Int) (cs : List Int)
    (mlp : Option (List Int)) (ks ss : IntOrList) (ps : PadArg) (nf : Rat)
    (noisy : Bool) (si : Rat) (net : ConvNetworkModel)
    (items : List ConvSeqItem) (spec : ConvLayerSpec)
    (h : (init in_dim (some cs) mlp ks ss ps nf noisy si).result = .ok net)
    (hitems : net.conv = .seq items)
    (hmem : ConvSeqItem.conv spec ∈ items) :
    spec.padding.1.1 = spec.padding.1.2 ∧ spec.padding.2.1 = spec.padding.2.2 := by
  simp only [init] at h
  by_cases hcond : (broadcastIntOrList ks cs.length).length = cs.length
      ∧ (broadcastIntOrList ss cs.length).length = cs.length
      ∧ (broadcastPad ps cs.length).length = cs.length
  · rw [if_pos hcond] at h
    cases hb : buildConvSeq cs (broadcastIntOrList ks cs.length)
        (broadcastIntOrList ss cs.length) (broadcastPad ps cs.length) with
    | error e => rw [hb] at h; exact absurd h (by simp)
    | ok built =>
      rw [hb] at h
      cases mlp with
      | some _ => exact absurd h (by simp)
      | none =>
        simp only at h
        cases h
        have hbi : ConvStage.seq built = ConvStage.seq items := hitems
        cases hbi
        exact buildConvSeq_padding_symm cs (broadcastIntOrList ks cs.length)
          (broadcastIntOrList ss cs.length) (broadcastPad ps cs.length)
          items hb spec hmem
  · rw [if_neg hcond] at h
    exact absurd h (by simp)

/-- Witness for C10: a concrete successful construction (paddings supplied as
the pair `[2,3]`) whose single convolution layer carries the symmetric padding
`((2,2),(3,3))`. -/
theorem conv_padding_symmetric_witness :
    (init (4, 84, 84) (some [16]) none (.int 1) (.int 1)
        (.list [.seq [2, 3]]) 255 false (1/2)).result
      = .ok ⟨255, .seq [.conv ⟨16, 1, 1, ((2, 2), (3, 3))⟩, .relu], .identity⟩
    ∧ (ConvLayerSpec.mk 16 1 1 ((2, 2), (3, 3))).padding.1.1
        = (ConvLayerSpec.mk 16 1 1 ((2, 2), (3, 3))).padding.1.2
    ∧ (ConvLayerSpec.mk 16 1 1 ((2, 2), (3, 3))).padding.2.1
        = (ConvLayerSpec.mk 16 1 1 ((2, 2), (3, 3))).padding.2.2 :=
  ⟨rfl,
   conv_padding_symmetric (4, 84, 84) [16] none (.int 1) (.int 1)
     (.list [.seq [2, 3]]) 255 false (1/2)
     ⟨255, .seq [.conv ⟨16, 1, 1, ((2, 2), (3, 3))⟩, .relu], .identity⟩
     [.conv ⟨16, 1, 1, ((2, 2), (3, 3))⟩, .relu]
     ⟨16, 1, 1, ((2, 2), (3, 3))⟩ rfl rfl (by simp)⟩

/-- C8 counterexample: the claim says the caller-supplied `channels` list is
unchanged after a successful construction, but `channels.insert(0, in_dim[0])`
at line 80 mutates it in place: after constructing with `in_dim=(4,84,84)` and
`channels=[16]` (pair paddings, so construction succeeds), the caller's list
holds `[4,16]`, not `[16]`. -/
theorem channels_list_mutated :
    (init (4, 84, 84) (some [16]) none (.int 1) (.int 1)
        (.list [.seq [0, 0]]) 255 false (1/2)).result
      = .ok ⟨255, .seq [.conv ⟨16, 1, 1, ((0, 0), (0, 0))⟩, .relu], .identity⟩
    ∧ (init (4, 84, 84) (some [16]) none (.int 1) (.int 1)
        (.list [.seq [0, 0]]) 255 false (1/2)).channelsFinal = some [4, 16]
    ∧ some [4, 16] ≠ some ([16] : List Int) :=
  ⟨rfl, rfl, by decide⟩

/-- C8 as amended: a successful construction with a `channels` list has
exactly one caller-visible side effect — the caller's `channels` list is
mutated in place to hold the input descriptor's channel count followed by its
original elements; nothing else of the configuration is touched. -/
theorem channels_list_mutation (in_dim : Int × Int × Int) (cs : List Int)
    (mlp : Option (List Int)) (ks ss : IntOrList) (ps : PadArg) (nf : Rat)
    (noisy : Bool) (si : Rat) (net : ConvNetworkModel)
    (h : (init in_dim (some cs) mlp ks ss ps nf noisy si).result = .ok net) :
    (init in_dim (some cs) mlp ks ss ps nf noisy si).channelsFinal
      = some (in_dim.1 :: cs) := by
  simp only [init] at h ⊢
  by_cases hcond : (broadcastIntOrList ks cs.length).length = cs.length
      ∧ (broadcastIntOrList ss cs.length).length = cs.length
      ∧ (broadcastPad ps cs.length).length = cs.length
  · rw [if_pos hcond] at h ⊢
    cases hb : buildConvSeq cs (broadcastIntOrList ks cs.length)
        (broadcastIntOrList ss cs.length) (broadcastPad ps cs.length) with
    | error e => rw [hb] at h
    | ok built => cases mlp <;> rfl
  · rw [if_neg hcond] at h
    exact absurd h (by simp)

/-- Witness for the amended C8: constructing with `channels=[32]` and
`in_dim=(4,84,84)` succeeds and leaves the caller's list holding `[4,32]`. -/
theorem channels_list_mutation_witness :
    (init (4, 84, 84) (some [32]) none (.int 1) (.int 1)
        (.list [.seq [1, 1]]) 255 false (1/2)).result
      = .ok ⟨255, .seq [.conv ⟨32, 1, 1, ((1, 1), (1, 1))⟩, .relu], .identity⟩
    ∧ (init (4, 84, 84) (some [32]) none (.int 1) (.int 1)
        (.list [.seq [1, 1]]) 255 false (1/2)).channelsFinal = some [4, 32] :=
  ⟨rfl,
   channels_list_mutation (4, 84, 84) [32] none (.int 1) (.int 1)
     (.list [.seq [1, 1]]) 255 false (1/2)
     ⟨255, .seq [.conv ⟨32, 1, 1, ((1, 1), (1, 1))⟩, .relu], .identity⟩ rfl⟩

/-- C3: for every construction call with `channels=None` that produces a
network, the convolutional stage is the parameterless identity, so for every
input the value entering the fully-connected stage is exactly the cast-to-float
input (after the rank dispatch) divided by the normalization factor —
whatever semantics the external framework gives to real convolution layers. -/
theorem channels_none_conv_identity (in_dim : Int × Int × Int)
    (mlp : Option (List Int)) (ks ss : IntOrList) (ps : PadArg) (nf : Rat)
    (noisy : Bool) (si : Rat) (net : ConvNetworkModel)
    (h : (init in_dim none mlp ks ss ps nf noisy si).result = .ok net) :
    net.conv = .identity
    ∧ ∀ (convSem : List ConvSeqItem → Tensor → Tensor) (x : Tensor),
        preMLP convSem net x = divScalar nf (castFloat (adjustRank x)) := by
  cases mlp with
  | some _ => exact absurd h (by simp [init])
  | none =>
    have hnet : net = ⟨nf, .identity, .identity⟩ := by
      have h' : Except.ok (⟨nf, .identity, .identity⟩ : ConvNetworkModel)
          = .ok net := h
      cases h'
      rfl
    subst hnet
    exact ⟨rfl, fun convSem x => rfl⟩

/-- Witness for C3: `channels=None` construction with factor 255, evaluated on
a concrete rank-3 input. -/
theorem channels_none_conv_identity_witness :
    (init (4, 84, 84) none none (.int 1) (.int 1) (.int 0)
        255 false (1/2)).result = .ok ⟨255, .identity, .identity⟩
    ∧ (ConvNetworkModel.mk 255 .identity .identity).conv = .identity
    ∧ preMLP (fun _ t => t) ⟨255, .identity, .identity⟩ ⟨[4, 1, 1], [2, 4, 6, 8]⟩
      = divScalar 255 (castFloat (adjustRank ⟨[4, 1, 1], [2, 4, 6, 8]⟩)) :=
  ⟨rfl,
   (channels_none_conv_identity (4, 84, 84) none (.int 1) (.int 1) (.int 0)
     255 false (1/2) ⟨255, .identity, .identity⟩ rfl).1,
   (channels_none_conv_identity (4, 84, 84) none (.int 1) (.int 1) (.int 0)
     255 false (1/2) ⟨255, .identity, .identity⟩ rfl).2
     (fun _ t => t) ⟨[4, 1, 1], [2, 4, 6, 8]⟩⟩

/-- C5: `forward` implements exactly the pipeline the spec describes: the
spec-side rank dispatch (rank 3 gains a unit batch dimension, a rank-5 shape
`(b,s,c,w,h)` collapses to `(b, s*c, w, h)`, rank 4 is unchanged), then the
float cast, then elementwise division by the normalization factor, then the
convolutional stage, then the fully-connected stage.  Well-formedness makes
the source's inferred `-1` reshape dimension equal the spec's `s*c`. -/
theorem forward_rank_dispatch (convSem : List ConvSeqItem → Tensor → Tensor)
    (net : ConvNetworkModel) (x : Tensor) (h : wellFormed x) :
    forward convSem net x
      = applyMLPStage net.mlp (applyConvStage convSem net.conv
          (divScalar net.normalization_factor (castFloat (adjustRankSpec x)))) := by
  unfold forward preMLP
  rw [adjustRank_eq_spec h]

/-- Witness for C5 at a concrete well-formed rank-5 input. -/
theorem forward_rank_dispatch_witness :
    wellFormed ⟨[1, 1, 2, 1, 1], [3, 5]⟩
    ∧ forward (fun _ t => t) ⟨255, .identity, .identity⟩ ⟨[1, 1, 2, 1, 1], [3, 5]⟩
      = applyMLPStage .identity (applyConvStage (fun _ t => t) .identity
          (divScalar 255 (castFloat (adjustRankSpec ⟨[1, 1, 2, 1, 1], [3, 5]⟩)))) :=
  ⟨by decide,
   forward_rank_dispatch (fun _ t => t) ⟨255, .identity, .identity⟩
     ⟨[1, 1, 2, 1, 1], [3, 5]⟩ (by decide)⟩

/-- C6: evaluating a rank-3 input of shape `(4,84,84)` gives the same result
as evaluating the rank-4 batch of shape `(1,4,84,84)` with the same values,
for every constructed network and every external layer semantics: the rank
dispatch maps the former to the latter and rank-4 inputs pass unchanged. -/
theorem forward_rank3_eq_batched (convSem : List ConvSeqItem → Tensor → Tensor)
    (net : ConvNetworkModel) (d : List Rat) :
    forward convSem net ⟨[4, 84, 84], d⟩ = forward convSem net ⟨[1, 4, 84, 84], d⟩ := rfl

/-- C7: for every normalization factor `F > 0`, evaluating `x` with a network
whose factor is `F` equals evaluating the pre-divided tensor `x/F` with the
otherwise-identical network whose factor is `1`, for every external layer
semantics and every input (values are exact rationals here). -/
theorem forward_normalization_equiv (convSem : List ConvSeqItem → Tensor → Tensor)
    (conv : ConvStage) (mlp : MLPStage) (F : Rat) (x : Tensor) (hF : 0 < F) :
    forward convSem ⟨F, conv, mlp⟩ x
      = forward convSem ⟨1, conv, mlp⟩ (divScalar F x) := by
  unfold forward preMLP castFloat
  simp only [adjustRank_divScalar, divScalar_one]

/-- Witness for C7: `F = 255` on a concrete rank-3 input. -/
theorem forward_normalization_equiv_witness :
    (0 : Rat) < 255
    ∧ forward (fun _ t => t) ⟨255, .identity, .identity⟩ ⟨[2, 1, 1], [510, 255]⟩
      = forward (fun _ t => t) ⟨1, .identity, .identity⟩
          (divScalar 255 ⟨[2, 1, 1], [510, 255]⟩) :=
  ⟨by norm_num,
   forward_normalization_equiv (fun _ t => t) .identity .identity 255
     ⟨[2, 1, 1], [510, 255]⟩ (by norm_num)⟩
